import Mathlib

/-!
Verification of the Execution Runtime Core of the stigmer repository:
the sandbox manager (`worker/sandbox_manager.py`), the loop-detection
middleware (`graphton/core/loop_detection.py`) and the status builder
(`worker/activities/graphton/status_builder.py`).

The Python sources are shallowly embedded as executable Lean functions.
JSON values are modelled by the inductive `JVal` (numbers restricted to
integers; string escaping restricted to quote and backslash, which is
immaterial here since every property only uses serialization equality).
SHA-256 digests are modelled by the digested text itself: the digest is
assumed collision-free on the inputs that occur, so equality of digests
coincides with equality of the serialized pre-images.
-/

namespace StigmerJson

/-- A JSON value, as handled by `json.dumps` in the Python sources.
Numbers are restricted to integers. -/
inductive JVal where
  | null : JVal
  | bool (b : Bool) : JVal
  | num (n : Int) : JVal
  | str (s : String) : JVal
  | arr (xs : List JVal) : JVal
  | obj (fields : List (String × JVal)) : JVal

/-- Python `d.get(k)` on a dict modelled as an association list. -/
def dictGet (fields : List (String × JVal)) (k : String) : Option JVal :=
  match fields with
  | [] => none
  | (k0, v) :: rest => if k0 = k then some v else dictGet rest k

/-- One character of a JSON string literal (escaping only quote and
backslash; the sources only ever compare serializations for equality). -/
def jsonEscapeChar (c : Char) : String :=
  if c = '"' then "\\\"" else if c = '\\' then "\\\\" else c.toString

/-- A JSON string literal. -/
def jsonQuote (s : String) : String :=
  "\"" ++ String.join (s.toList.map jsonEscapeChar) ++ "\""

/-- Insert a serialized field into a key-sorted list of serialized fields
(Python dict keys are unique, so ties are irrelevant). -/
def insertFieldByKey (x : String × String) : List (String × String) → List (String × String)
  | [] => [x]
  | y :: ys => if x.1 < y.1 then x :: y :: ys else y :: insertFieldByKey x ys

/-- Sort serialized fields by key, as `json.dumps(.., sort_keys=True)` does. -/
def sortFieldsByKey : List (String × String) → List (String × String)
  | [] => []
  | x :: xs => insertFieldByKey x (sortFieldsByKey xs)

/-- Join serialized object fields with the default `json.dumps` separators. -/
def joinFields : List (String × String) → String
  | [] => ""
  | [(k, v)] => jsonQuote k ++ ": " ++ v
  | (k, v) :: y :: ys => jsonQuote k ++ ": " ++ v ++ ", " ++ joinFields (y :: ys)

mutual

/-- `json.dumps(v, sort_keys=True)` with the default separators. -/
def jsonDumps : JVal → String
  | .null => "null"
  | .bool b => if b then "true" else "false"
  | .num n => toString n
  | .str s => jsonQuote s
  | .arr xs => "[" ++ jsonDumpsArr xs ++ "]"
  | .obj fs => "\x7b" ++ joinFields (sortFieldsByKey (jsonDumpFields fs)) ++ "\x7d"

/-- Serialize the elements of a JSON array, comma separated. -/
def jsonDumpsArr : List JVal → String
  | [] => ""
  | [x] => jsonDumps x
  | x :: y :: ys => jsonDumps x ++ ", " ++ jsonDumpsArr (y :: ys)

/-- Serialize each field value of a JSON object, keeping its key. -/
def jsonDumpFields : List (String × JVal) → List (String × String)
  | [] => []
  | (k, v) :: fs => (k, jsonDumps v) :: jsonDumpFields fs

end

end StigmerJson

namespace SandboxManager

open StigmerJson

/-- `ExecutionMode` from `worker.config`, as used by
`worker/sandbox_manager.py` (values LOCAL, SANDBOX and AUTO). -/
inductive ExecutionMode where
  | LOCAL : ExecutionMode
  | SANDBOX : ExecutionMode
  | AUTO : ExecutionMode
deriving DecidableEq

/-- `ExecutionResult` dataclass from `worker/sandbox_manager.py`. -/
structure ExecutionResult where
  exit_code : Int
  stdout : String
  stderr : String
  execution_mode : String
deriving DecidableEq

/-- The `risky_commands` list of `SandboxManager._auto_detect_mode`. -/
def risky_commands : List String :=
  ["pip", "pip3",
   "npm", "yarn", "pnpm",
   "apt", "apt-get", "yum", "dnf", "brew",
   "gem", "cargo", "go install"]

/-- ASCII lowering of a string to a character list (Python `str.lower`;
the risk lexicon is pure ASCII). -/
def lowerChars (s : String) : List Char :=
  s.toList.map Char.toLower

/-- `needle` is a leading segment of `hay` (character lists). -/
def leadsWith : List Char → List Char → Bool
  | [], _ => true
  | _ :: _, [] => false
  | c :: cs, d :: ds => c = d && leadsWith cs ds

/-- Python substring containment `needle in hay` on character lists. -/
def occursIn : List Char → List Char → Bool
  | needle, [] => leadsWith needle []
  | needle, c :: t => leadsWith needle (c :: t) || occursIn needle t

/-- `SandboxManager._auto_detect_mode`: scan the lowercased command for any
risky token; a hit selects SANDBOX, otherwise LOCAL. -/
def auto_detect_mode (command : String) : ExecutionMode :=
  if risky_commands.any (fun risky => occursIn risky.toList (lowerChars command)) then
    ExecutionMode.SANDBOX
  else
    ExecutionMode.LOCAL

/-- `SandboxManager._determine_execution_mode`: AUTO resolves through
`_auto_detect_mode`, any pinned mode is returned unchanged. -/
def determine_execution_mode (mode : ExecutionMode) (command : String) : ExecutionMode :=
  if mode = ExecutionMode.AUTO then auto_detect_mode command else mode

/-- Outcome of the subprocess machinery inside `_execute_local`: normal
completion (with Python `returncode`, possibly None), an `asyncio`
timeout, or any other exception (carrying `str(e)`). -/
inductive LocalOutcome where
  | completed (returncode : Option Int) (out err : String) : LocalOutcome
  | timedOut : LocalOutcome
  | raised (msg : String) : LocalOutcome
deriving DecidableEq

/-- The text of the `TimeoutError` raised by `_execute_local` on timeout. -/
def timeout_message (t : Option Nat) : String :=
  "Command timed out after " ++
    (match t with | some n => toString n | none => "None") ++ " seconds"

/-- Python `process.returncode or 0`. -/
def returncode_or_zero : Option Int → Int
  | some c => if c = 0 then 0 else c
  | none => 0

/-- `SandboxManager._execute_local`: the timeout branch re-raises a
`TimeoutError` which the surrounding `except Exception` converts, like any
other exception, into a structured result; nothing escapes. -/
def execute_local (t : Option Nat) : LocalOutcome → ExecutionResult
  | .completed rc out err => ⟨returncode_or_zero rc, out, err, "local"⟩
  | .timedOut => ⟨1, "", timeout_message t, "local"⟩
  | .raised msg => ⟨1, "", msg, "local"⟩

/-- Outcome of the Docker machinery inside `_execute_docker`: the docker
library missing, a completed `exec_run` (output possibly None), or any
exception raised along the way (carrying `str(e)`). -/
inductive DockerOutcome where
  | unavailable : DockerOutcome
  | execd (exit_code : Int) (output : Option String) : DockerOutcome
  | raised (msg : String) : DockerOutcome
deriving DecidableEq

/-- `SandboxManager._execute_docker`: every failure path is converted into
a structured result; nothing escapes. -/
def execute_docker : DockerOutcome → ExecutionResult
  | .unavailable => ⟨1, "", "Docker library not available", "docker"⟩
  | .execd code output => ⟨code, output.getD "", "", "docker"⟩
  | .raised msg => ⟨1, "", msg, "docker"⟩

/-- `SandboxManager.execute_command`: resolve the mode, then dispatch to
the local or docker backend; the unreachable fallthrough raises
`ValueError`. The backend outcomes are passed in as oracles. -/
def execute_command (mode : ExecutionMode) (command : String) (t : Option Nat)
    (localRun : LocalOutcome) (dockerRun : DockerOutcome) :
    Except String ExecutionResult :=
  match determine_execution_mode mode command with
  | .LOCAL => .ok (execute_local t localRun)
  | .SANDBOX => .ok (execute_docker dockerRun)
  | .AUTO => .error "Unsupported execution mode"

/-- Outcome of one readiness probe (`sandbox.process.exec("echo ready")`)
in `_create_daytona_sandbox`: a result with an exit code, or an exception. -/
inductive ProbeOutcome where
  | ok (exit_code : Int) : ProbeOutcome
  | exn : ProbeOutcome
deriving DecidableEq

/-- A probe counts as ready exactly when it returned exit code 0. -/
def probe_ready : ProbeOutcome → Bool
  | .ok c => c = 0
  | .exn => false

/-- Number of readiness polling attempts in `_create_daytona_sandbox`. -/
def daytona_poll_attempts : Nat := 90

/-- Seconds slept between two readiness polling attempts. -/
def daytona_poll_interval_seconds : Nat := 2

/-- The polling loop of `_create_daytona_sandbox`: try up to `fuel` further
attempts starting at index `attempt`, returning the first ready attempt. -/
def poll_ready (probe : Nat → ProbeOutcome) : Nat → Nat → Option Nat
  | _, 0 => none
  | attempt, fuel + 1 =>
    if probe_ready (probe attempt) then some attempt
    else poll_ready probe (attempt + 1) fuel

/-- Result of `_create_daytona_sandbox` after the sandbox object itself was
created: either the ready sandbox id, or the `RuntimeError` text raised
after the 180 s polling window; `delete_attempted` records whether the
timeout branch called `sandbox.delete()`. -/
structure DaytonaCreateResult where
  outcome : Except String String
  delete_attempted : Bool

/-- `SandboxManager._create_daytona_sandbox`, from the point where the
sandbox object exists: poll readiness up to 90 attempts; on success return
the sandbox, on timeout delete it and raise, with the outer
`except Exception` re-wrapping the error text. -/
def create_daytona_sandbox (sandbox_id : String) (probe : Nat → ProbeOutcome) :
    DaytonaCreateResult :=
  match poll_ready probe 0 daytona_poll_attempts with
  | some _ => ⟨.ok sandbox_id, false⟩
  | none =>
    ⟨.error ("Failed to create Daytona sandbox: Daytona sandbox " ++ sandbox_id ++
        " failed to start within 180 seconds"), true⟩

end SandboxManager

namespace LoopDetection

open StigmerJson

/-- Constructor arguments of `LoopDetectionMiddleware` (the `enabled`
flag is not modelled: every claim concerns an enabled detector). -/
structure Config where
  history_size : Nat
  consecutive_threshold : Nat
  total_threshold : Nat

/-- The default thresholds of `LoopDetectionMiddleware.__init__`. -/
def default_config : Config := ⟨10, 3, 5⟩

/-- The per-invocation state of the middleware: the bounded deque of
`(tool_name, param_hash)` signatures (newest last), the intervention
counter, and the stopped flag. -/
structure LoopState where
  tool_history : List (String × String)
  intervention_count : Nat
  stopped : Bool
deriving DecidableEq

/-- The state set up by `abefore_agent` (and by `__init__`). -/
def init_state : LoopState := ⟨[], 0, false⟩

/-- `LoopDetectionMiddleware._hash_params`: SHA-256 of
`json.dumps(params, sort_keys=True)`, the digest modelled by the
serialized text itself. -/
def hash_params (params : List (String × JVal)) : String :=
  jsonDumps (JVal.obj params)

/-- `deque(maxlen=n).append`: append on the right, evicting from the left
once the capacity is reached. -/
def push_bounded (maxlen : Nat) (h : List (String × String)) (x : String × String) :
    List (String × String) :=
  let h2 := h ++ [x]
  h2.drop (h2.length - maxlen)

/-- Walk the reversed remainder of the history and count how many entries
match the newest signature before the first mismatch. -/
def trailing_matches (recent : String × String) : List (String × String) → Nat
  | [] => 0
  | y :: ys => if y = recent then 1 + trailing_matches recent ys else 0

/-- `_detect_consecutive_loops`: `(is_loop, tool_name, consecutive_count)`
for the given history. -/
def detect_consecutive_loops (cfg : Config) (h : List (String × String)) :
    Bool × String × Nat :=
  match h.getLast? with
  | none => (false, "", 0)
  | some recent =>
    let consecutive_count := 1 + trailing_matches recent h.dropLast.reverse
    (decide (cfg.consecutive_threshold ≤ consecutive_count), recent.1, consecutive_count)

/-- `_detect_total_repetitions`: `(is_excessive, tool_name, total_count)`
for the given history. -/
def detect_total_repetitions (cfg : Config) (h : List (String × String)) :
    Bool × String × Nat :=
  match h.getLast? with
  | none => (false, "", 0)
  | some recent =>
    let total_count := h.count recent
    (decide (cfg.total_threshold ≤ total_count), recent.1, total_count)

/-- An intervention directive, as materialized by
`_create_intervention_message` (`is_final` distinguishes the two texts;
the counts quoted in the message are carried explicitly). -/
inductive Intervention where
  | warning (tool : String) (consecutive_count : Nat) : Intervention
  | terminal (tool : String) (total_count : Nat) : Intervention
deriving DecidableEq

/-- The per-tool-call body of `aafter_step` (the spec's
`observe(tool_name, args)`): when not stopped, append the signature, run
both detectors, and fire at most one intervention — TERMINAL when the
total threshold is crossed (setting `stopped`), otherwise WARNING when the
consecutive threshold is crossed and no intervention was issued yet. When
stopped, nothing is tracked and nothing fires. -/
def observe (cfg : Config) (st : LoopState) (sig : String × String) :
    LoopState × Option Intervention :=
  if st.stopped then (st, none)
  else
    let history := push_bounded cfg.history_size st.tool_history sig
    let cons := detect_consecutive_loops cfg history
    let tot := detect_total_repetitions cfg history
    if tot.1 then
      (⟨history, st.intervention_count + 1, true⟩,
        some (.terminal tot.2.1 tot.2.2))
    else if cons.1 && decide (st.intervention_count = 0) then
      (⟨history, st.intervention_count + 1, st.stopped⟩,
        some (.warning cons.2.1 cons.2.2))
    else
      (⟨history, st.intervention_count, st.stopped⟩, none)

/-- Fold `observe` over a list of signatures, recording the intervention
(or its absence) emitted by each step. -/
def observe_run (cfg : Config) (st : LoopState) :
    List (String × String) → LoopState × List (Option Intervention)
  | [] => (st, [])
  | sig :: rest =>
    let step := observe cfg st sig
    let tail := observe_run cfg step.1 rest
    (tail.1, step.2 :: tail.2)

/-- The signature of `observe("search", \x7b"q": "x"\x7d)` used by the
spec's loop-detection test properties. -/
def sigX : String × String := ("search", hash_params [("q", JVal.str "x")])

/-- The five-fold repetition run of the total-threshold test property. -/
def c1_run : LoopState × List (Option Intervention) :=
  observe_run default_config init_state [sigX, sigX, sigX, sigX, sigX]

/-- Recognizer for TERMINAL interventions among per-step outputs. -/
def is_terminal_output : Option Intervention → Bool
  | some (.terminal _ _) => true
  | _ => false

end LoopDetection

namespace StatusBuilder

open StigmerJson

/-- The two `MessageType` proto enum values used by `status_builder.py`. -/
inductive MessageType where
  | MESSAGE_AI : MessageType
  | MESSAGE_TOOL : MessageType
deriving DecidableEq

/-- The `ToolCallStatus` proto enum values used by `status_builder.py`. -/
inductive ToolCallStatus where
  | TOOL_CALL_PENDING : ToolCallStatus
  | TOOL_CALL_COMPLETED : ToolCallStatus
  | TOOL_CALL_ERROR : ToolCallStatus
deriving DecidableEq

/-- The `TodoStatus` proto enum values used by `status_builder.py`. -/
inductive TodoStatus where
  | TODO_STATUS_PENDING : TodoStatus
  | TODO_STATUS_IN_PROGRESS : TodoStatus
  | TODO_STATUS_COMPLETED : TodoStatus
  | TODO_STATUS_CANCELLED : TodoStatus
deriving DecidableEq

/-- The `ToolCall` proto message, with the fields `status_builder.py`
reads or writes (`component_metadata` is presentation-only and omitted). -/
structure ToolCall where
  id : String
  name : String
  args : List (String × JVal)
  result : String
  status : ToolCallStatus
  started_at : String
  completed_at : String

/-- The `AgentMessage` proto message, with the fields used. -/
structure AgentMessage where
  type : MessageType
  content : String
  timestamp : String
  tool_calls : List ToolCall

/-- The `TodoItem` proto message, with the fields used. -/
structure TodoItem where
  id : String
  content : String
  status : TodoStatus
  created_at : String
  updated_at : String

/-- The parts of the `AgentExecutionStatus` proto that
`status_builder.py` mutates (`todos` is a proto map, modelled as an
association list with unique keys). -/
structure Status where
  messages : List AgentMessage
  tool_calls : List ToolCall
  todos : List (String × TodoItem)

/-- The mutable state of `StatusBuilder`: the status under construction
and the set of already-seen tool-start fingerprints (modelled as a list
used only through membership). -/
structure Builder where
  current_status : Status
  tool_call_fingerprints : List String

/-- An empty initial status. -/
def empty_status : Status := ⟨[], [], []⟩

/-- A builder over an empty initial status. -/
def empty_builder : Builder := ⟨empty_status, []⟩

/-- The `PLANNING_TOOLS` set of `status_builder.py`. -/
def PLANNING_TOOLS : List String := ["write_todos"]

/-- `StatusBuilder._unwrap_tool_args`: strip the LangGraph `kwargs` /
singleton `input` wrappers. -/
def unwrap_tool_args (args : List (String × JVal)) : List (String × JVal) :=
  match dictGet args "kwargs" with
  | some (.obj kw) => kw
  | _ =>
    match dictGet args "input" with
    | some (.obj inner) => if args.length = 1 then inner else args
    | _ => args

/-- `StatusBuilder._get_tool_fingerprint`: SHA-256 of
`"name:" + json.dumps(args, sort_keys=True)`, the digest modelled by the
digested text itself (the run id plays no part in it). -/
def get_tool_fingerprint (tool_name : String) (tool_args : List (String × JVal)) : String :=
  tool_name ++ ":" ++ jsonDumps (JVal.obj tool_args)

/-- Python `str()` on the JSON values that reach it in
`status_builder.py` (for containers the JSON rendering stands in for the
Python `repr`; no property compares these texts against anything). -/
def pyStr : JVal → String
  | .str s => s
  | .num n => toString n
  | .bool b => if b then "True" else "False"
  | .null => "None"
  | .arr xs => jsonDumps (.arr xs)
  | .obj fs => jsonDumps (.obj fs)

/-- `d.get(k, default)` restricted to string values, as the proto string
fields require. -/
def getStr (fields : List (String × JVal)) (k : String) (dflt : String) : String :=
  match dictGet fields k with
  | some (.str s) => s
  | _ => dflt

/-- The `status_map` lookup of `_update_todos`, default PENDING. -/
def todo_status_of_string (s : String) : TodoStatus :=
  if s = "pending" then .TODO_STATUS_PENDING
  else if s = "in_progress" then .TODO_STATUS_IN_PROGRESS
  else if s = "completed" then .TODO_STATUS_COMPLETED
  else if s = "cancelled" then .TODO_STATUS_CANCELLED
  else .TODO_STATUS_PENDING

/-- Python `str.lower` restricted to ASCII (todo status strings). -/
def asciiLower (s : String) : String :=
  String.mk (s.toList.map Char.toLower)

/-- Map-style upsert on the `todos` proto map
(`todos[todo_id].CopyFrom(item)`). -/
def upsert_todo : List (String × TodoItem) → String → TodoItem → List (String × TodoItem)
  | [], k, v => [(k, v)]
  | (k0, v0) :: rest, k, v =>
    if k0 = k then (k, v) :: rest else (k0, v0) :: upsert_todo rest k v

/-- `StatusBuilder._update_todos`: upsert each dict with a non-empty id
(non-dict entries do not occur in well-typed updates and are skipped). -/
def update_todos (now : String) (todos_data : List JVal)
    (todos : List (String × TodoItem)) : List (String × TodoItem) :=
  match todos_data with
  | [] => todos
  | .obj d :: rest =>
    let todo_id := getStr d "id" ""
    if todo_id = "" then update_todos now rest todos
    else
      let status_enum := todo_status_of_string (asciiLower (getStr d "status" "pending"))
      let item : TodoItem :=
        ⟨todo_id, getStr d "content" "", status_enum, getStr d "created_at" now, now⟩
      update_todos now rest (upsert_todo todos todo_id item)
  | _ :: rest => update_todos now rest todos

/-- `StatusBuilder._handle_tool_start_event`, with the event fields
(`name`, raw `data.input`, `run_id`) and the wall clock passed
explicitly: drop nameless/idless events, dedup on the fingerprint, route
planning tools to the todo update, and otherwise append one PENDING
ToolCall to both the transcript and the tool-call index. -/
def handle_tool_start (b : Builder) (tool_name : String)
    (raw_args : List (String × JVal)) (run_id : String) (now : String) : Builder :=
  if tool_name = "" ∨ run_id = "" then b
  else
    let tool_args := unwrap_tool_args raw_args
    let fp := get_tool_fingerprint tool_name tool_args
    if fp ∈ b.tool_call_fingerprints then b
    else
      let fps := fp :: b.tool_call_fingerprints
      if tool_name ∈ PLANNING_TOOLS then
        let todos_data := match dictGet tool_args "todos" with
          | some (.arr xs) => xs
          | _ => []
        ⟨{ b.current_status with
            todos := if todos_data.isEmpty then b.current_status.todos
              else update_todos now todos_data b.current_status.todos }, fps⟩
      else
        let tc : ToolCall :=
          ⟨run_id, tool_name, tool_args, "", .TOOL_CALL_PENDING, now, ""⟩
        let msg : AgentMessage := ⟨.MESSAGE_TOOL, "", now, [tc]⟩
        ⟨{ b.current_status with
            messages := b.current_status.messages ++ [msg],
            tool_calls := b.current_status.tool_calls ++ [tc] }, fps⟩

/-- `StatusBuilder._extract_tool_result_content` (the `indent=2` layout of
the fallback `json.dumps` is elided; no property inspects that text). -/
def extract_tool_result_content : JVal → String
  | .str s => s
  | .obj fields =>
    match dictGet fields "output" with
    | some (.str s) => s
    | some v => pyStr v
    | none =>
      match dictGet fields "content" with
      | some v => pyStr v
      | none => jsonDumps (.obj fields)
  | v => pyStr v

/-- The match condition of the transcript loop in
`_handle_tool_end_event`: a tool message whose first tool call carries the
event's run id. -/
def message_matches_run (run_id : String) (m : AgentMessage) : Bool :=
  match m.tool_calls with
  | [] => false
  | tc :: _ => m.type = MessageType.MESSAGE_TOOL && tc.id = run_id

/-- The completion mutation applied to a matched ToolCall. -/
def complete_tool_call (content now : String) (tc : ToolCall) : ToolCall :=
  { tc with result := content, status := .TOOL_CALL_COMPLETED, completed_at := now }

/-- The transcript loop of `_handle_tool_end_event`: complete the first
matching tool message (its first tool call) and stop. -/
def update_first_message (run_id content now : String) :
    List AgentMessage → List AgentMessage
  | [] => []
  | m :: rest =>
    if message_matches_run run_id m then
      { m with tool_calls :=
          match m.tool_calls with
          | [] => []
          | tc :: t => complete_tool_call content now tc :: t } :: rest
    else m :: update_first_message run_id content now rest

/-- The index loop of `_handle_tool_end_event`: complete the first
ToolCall with the event's run id and stop. -/
def update_first_tool_call (run_id content now : String) :
    List ToolCall → List ToolCall
  | [] => []
  | tc :: rest =>
    if tc.id = run_id then complete_tool_call content now tc :: rest
    else tc :: update_first_tool_call run_id content now rest

/-- `StatusBuilder._handle_tool_end_event`: drop idless events and
planning tools, otherwise complete the first match in the transcript and
in the tool-call index; an unmatched run id changes nothing. -/
def handle_tool_end (s : Status) (tool_name run_id : String) (output : JVal)
    (now : String) : Status :=
  if run_id = "" ∨ tool_name ∈ PLANNING_TOOLS then s
  else
    let content := extract_tool_result_content output
    { s with
        messages := update_first_message run_id content now s.messages,
        tool_calls := update_first_tool_call run_id content now s.tool_calls }

/-- The `chunk.content` shapes `_handle_chat_model_stream_event`
distinguishes: a plain string, a list of content blocks, or anything
else (including a chunk without a `content` attribute). -/
inductive ChunkContent where
  | str (s : String) : ChunkContent
  | blocks (xs : List JVal) : ChunkContent
  | other : ChunkContent

/-- `StatusBuilder._extract_string_content`: concatenate the `text` of
the blocks tagged `type == "text"`. -/
def extract_string_content : List JVal → String
  | [] => ""
  | .obj fields :: rest =>
    (match dictGet fields "type" with
     | some (.str t) => if t = "text" then getStr fields "text" "" else ""
     | _ => "") ++ extract_string_content rest
  | _ :: rest => extract_string_content rest

/-- The token extracted from a stream event (`none` models a falsy
`data.chunk`). -/
def token_of_chunk : Option ChunkContent → String
  | none => ""
  | some (.str s) => s
  | some (.blocks xs) => extract_string_content xs
  | some .other => ""

/-- The `reversed(messages)` scan of `_handle_chat_model_stream_event`:
append the token to the most recent AI message anywhere in the transcript,
or report that there is none. -/
def append_token_to_last_ai (token : String) :
    List AgentMessage → Option (List AgentMessage)
  | [] => none
  | m :: rest =>
    match append_token_to_last_ai token rest with
    | some rest2 => some (m :: rest2)
    | none =>
      if m.type = MessageType.MESSAGE_AI then
        some ({ m with content := m.content ++ token } :: rest)
      else none

/-- `StatusBuilder._handle_chat_model_stream_event`: extract the token;
if empty do nothing; otherwise append it to the most recent AI message,
creating a fresh AI message only when none exists at all. -/
def handle_chat_model_stream (s : Status) (chunk : Option ChunkContent)
    (now : String) : Status :=
  let token := token_of_chunk chunk
  if token = "" then s
  else
    match append_token_to_last_ai token s.messages with
    | some ms => { s with messages := ms }
    | none =>
      { s with messages := s.messages ++ [⟨.MESSAGE_AI, token, now, []⟩] }

/-- Modelled from the spec sentence under comparison (C2): route the token
to the most recent transcript entry when that entry is an AI entry,
otherwise open a new AI entry with the token as its initial content. -/
def token_routing_as_specified (s : Status) (token : String) (now : String) : Status :=
  if token = "" then s
  else
    match s.messages.getLast? with
    | some m =>
      if m.type = MessageType.MESSAGE_AI then
        { s with messages :=
            s.messages.dropLast ++ [{ m with content := m.content ++ token }] }
      else { s with messages := s.messages ++ [⟨.MESSAGE_AI, token, now, []⟩] }
    | none => { s with messages := s.messages ++ [⟨.MESSAGE_AI, token, now, []⟩] }

/-- A pending tool call used by concrete scenarios. -/
def tc_fetch : ToolCall :=
  ⟨"run-7", "fetch", [("url", JVal.str "https://a")], "", .TOOL_CALL_PENDING, "t1", ""⟩

/-- A transcript whose most recent entry is a tool entry, with an earlier
AI entry: the discriminating input for the token-routing comparison. -/
def c2_state : Status :=
  ⟨[⟨.MESSAGE_AI, "He", "t0", []⟩, ⟨.MESSAGE_TOOL, "", "t1", [tc_fetch]⟩],
   [tc_fetch], []⟩

/-- A status holding exactly the pending tool call `tc_fetch`. -/
def c3_state : Status :=
  ⟨[⟨.MESSAGE_TOOL, "", "t1", [tc_fetch]⟩], [tc_fetch], []⟩

/-- The state after delivering the identical tool-start event
`(name "x", args empty, id "1")` twice. -/
def c4_builder : Builder :=
  handle_tool_start (handle_tool_start empty_builder "x" [] "1" "t0") "x" [] "1" "t1"

/-- The state after delivering two tool-start events with equal name and
args but different run ids. -/
def c9_builder : Builder :=
  handle_tool_start
    (handle_tool_start empty_builder "search" [("q", JVal.str "x")] "1" "t0")
    "search" [("q", JVal.str "x")] "2" "t1"

end StatusBuilder

/-!
Theorems. Shared characterization lemmas come first in each namespace,
then the theorems settling the individual spec properties.
-/

namespace SandboxManager

/-- `leadsWith` recognizes exactly the leading segments. -/
theorem leadsWith_iff (n : List Char) : ∀ h : List Char,
    leadsWith n h = true ↔ ∃ post, h = n ++ post := by
  induction n with
  | nil =>
    intro h
    simp [leadsWith]
  | cons c cs ih =>
    intro h
    cases h with
    | nil =>
      simp [leadsWith]
    | cons d ds =>
      simp only [leadsWith, Bool.and_eq_true, decide_eq_true_eq, ih, List.cons_append,
        List.cons.injEq]
      constructor
      · rintro ⟨rfl, post, rfl⟩
        exact ⟨post, rfl, rfl⟩
      · rintro ⟨post, rfl, rfl⟩
        exact ⟨rfl, post, rfl⟩

/-- `occursIn` recognizes exactly substring containment: the needle occurs
somewhere strictly inside the haystack. -/
theorem occursIn_iff (n : List Char) : ∀ h : List Char,
    occursIn n h = true ↔ ∃ pre post, h = pre ++ n ++ post := by
  intro h
  induction h with
  | nil =>
    simp only [occursIn, leadsWith_iff]
    constructor
    · rintro ⟨post, hp⟩
      exact ⟨[], post, by simpa using hp⟩
    · rintro ⟨pre, post, hp⟩
      have h2 := hp.symm
      rw [List.append_assoc] at h2
      rcases List.append_eq_nil.mp h2 with ⟨hpre, h3⟩
      rcases List.append_eq_nil.mp h3 with ⟨hn, hpost⟩
      exact ⟨post, by simp [hn, hpost]⟩
  | cons c t ih =>
    simp only [occursIn, Bool.or_eq_true, leadsWith_iff, ih]
    constructor
    · rintro (⟨post, hp⟩ | ⟨pre, post, hp⟩)
      · exact ⟨[], post, by simpa using hp⟩
      · exact ⟨c :: pre, post, by simp [hp]⟩
    · rintro ⟨pre, post, hp⟩
      cases pre with
      | nil => exact Or.inl ⟨post, by simpa using hp⟩
      | cons c2 pre2 =>
        right
        simp only [List.cons_append, List.cons.injEq] at hp
        exact ⟨pre2, post, hp.2⟩

/-- When every probe in the window fails, the polling loop exhausts its
fuel without finding a ready attempt. -/
theorem poll_ready_eq_none (probe : Nat → ProbeOutcome) :
    ∀ (fuel attempt : Nat),
      (∀ n, attempt ≤ n → n < attempt + fuel → probe_ready (probe n) = false) →
      poll_ready probe attempt fuel = none := by
  intro fuel
  induction fuel with
  | zero => intro attempt _; rfl
  | succ f ih =>
    intro attempt hfail
    have h0 : probe_ready (probe attempt) = false :=
      hfail attempt (Nat.le_refl _) (by omega)
    simp only [poll_ready, h0, Bool.false_eq_true, if_false]
    exact ih (attempt + 1) (fun n h1 h2 => hfail n (by omega) (by omega))

/-- C10: under the AUTO policy the risk check is a substring match on the
lowercased command text — the command is escalated to SANDBOX iff some
fixed risky token occurs anywhere inside it, so the benign command
"echo pipeline" (which contains "pip") is routed to the sandbox. -/
theorem C10_risk_check_is_substring_match (command : String) :
    (determine_execution_mode .AUTO command = .SANDBOX ↔
      ∃ risky ∈ risky_commands,
        ∃ pre post, lowerChars command = pre ++ risky.toList ++ post) ∧
    determine_execution_mode .AUTO "echo pipeline" = .SANDBOX := by
  constructor
  · show auto_detect_mode command = .SANDBOX ↔ _
    unfold auto_detect_mode
    split
    case isTrue hany =>
      simp only [List.any_eq_true] at hany
      obtain ⟨r, hr, hocc⟩ := hany
      rw [occursIn_iff] at hocc
      exact ⟨fun _ => ⟨r, hr, hocc⟩, fun _ => rfl⟩
    case isFalse hany =>
      constructor
      · intro h; cases h
      · rintro ⟨r, hr, pre, post, hsplit⟩
        exact absurd
          (List.any_eq_true.mpr ⟨r, hr, (occursIn_iff _ _).mpr ⟨pre, post, hsplit⟩⟩) hany
  · decide

/-- C10 witness: the substring characterization at "echo pipeline". -/
theorem C10_risk_check_witness :
    (determine_execution_mode .AUTO "echo pipeline" = .SANDBOX ↔
      ∃ risky ∈ risky_commands,
        ∃ pre post, lowerChars "echo pipeline" = pre ++ risky.toList ++ post) ∧
    determine_execution_mode .AUTO "echo pipeline" = .SANDBOX :=
  C10_risk_check_is_substring_match "echo pipeline"

/-- C7: under the AUTO policy, "pip install requests" routes to the
isolated sandbox backend and "echo hi" routes to direct local execution. -/
theorem C7_auto_detect_routing :
    determine_execution_mode .AUTO "pip install requests" = .SANDBOX ∧
    determine_execution_mode .AUTO "echo hi" = .LOCAL := by
  decide

/-- C6: when the readiness probe of a new Daytona sandbox never succeeds
within the 90-attempt / 2-second (180 s) polling window, the
partially-created sandbox is deleted and a provisioning error is raised;
no handle is returned. -/
theorem C6_provisioning_timeout_tears_down (sandbox_id : String)
    (probe : Nat → ProbeOutcome)
    (hfail : ∀ n, n < daytona_poll_attempts → probe_ready (probe n) = false) :
    (create_daytona_sandbox sandbox_id probe).outcome =
      .error ("Failed to create Daytona sandbox: Daytona sandbox " ++ sandbox_id ++
        " failed to start within 180 seconds") ∧
    (create_daytona_sandbox sandbox_id probe).delete_attempted = true ∧
    (∀ hid, (create_daytona_sandbox sandbox_id probe).outcome ≠ .ok hid) ∧
    daytona_poll_attempts * daytona_poll_interval_seconds = 180 := by
  have hnone : poll_ready probe 0 daytona_poll_attempts = none :=
    poll_ready_eq_none probe daytona_poll_attempts 0
      (fun n _ h2 => hfail n (by omega))
  refine ⟨?_, ?_, ?_, by decide⟩
  · simp [create_daytona_sandbox, hnone]
  · simp [create_daytona_sandbox, hnone]
  · intro hid
    simp [create_daytona_sandbox, hnone]

/-- C6 witness: a probe that always throws is torn down and errors. -/
theorem C6_provisioning_timeout_witness :
    (create_daytona_sandbox "sb-1" (fun _ => .exn)).outcome =
      .error ("Failed to create Daytona sandbox: Daytona sandbox sb-1" ++
        " failed to start within 180 seconds") ∧
    (create_daytona_sandbox "sb-1" (fun _ => .exn)).delete_attempted = true := by
  have h := C6_provisioning_timeout_tears_down "sb-1" (fun _ => .exn) (fun n _ => rfl)
  exact ⟨h.1, h.2.1⟩

/-- C8: in local and docker modes a command-execution failure — a timeout
included — never escapes to the caller: it is returned as a structured
`ExecutionResult` with exit code 1 and the error text in stderr, and
`execute_command` always returns a result in these modes (the embedding is
total: nothing is raised). -/
theorem C8_failures_return_structured_results (command : String) (t : Option Nat)
    (msg : String) (l : LocalOutcome) (d : DockerOutcome) :
    execute_local t .timedOut = ⟨1, "", timeout_message t, "local"⟩ ∧
    execute_local t (.raised msg) = ⟨1, "", msg, "local"⟩ ∧
    execute_docker (.raised msg) = ⟨1, "", msg, "docker"⟩ ∧
    execute_docker .unavailable = ⟨1, "", "Docker library not available", "docker"⟩ ∧
    (execute_local t .timedOut).exit_code ≠ 0 ∧
    (execute_local t (.raised msg)).exit_code ≠ 0 ∧
    (execute_docker (.raised msg)).exit_code ≠ 0 ∧
    (∃ r, execute_command .LOCAL command t l d = .ok r) ∧
    (∃ r, execute_command .SANDBOX command t l d = .ok r) := by
  refine ⟨rfl, rfl, rfl, rfl, by simp [execute_local], by simp [execute_local],
    by simp [execute_docker], ?_, ?_⟩
  · exact ⟨execute_local t l, rfl⟩
  · exact ⟨execute_docker d, rfl⟩

/-- C8 witness: a concrete timeout and a concrete docker failure. -/
theorem C8_failures_witness :
    execute_local (some 5) .timedOut = ⟨1, "", timeout_message (some 5), "local"⟩ ∧
    execute_docker .unavailable = ⟨1, "", "Docker library not available", "docker"⟩ :=
  ⟨(C8_failures_return_structured_results "echo hi" (some 5) "boom" .timedOut .unavailable).1,
   (C8_failures_return_structured_results "echo hi" (some 5) "boom"
     .timedOut .unavailable).2.2.2.1⟩

end SandboxManager

namespace LoopDetection

/-- A WARNING can only come out of the branch guarded by
`intervention_count == 0` on a detector that is not stopped. -/
theorem observe_warning_needs_no_intervention (cfg : Config) (st : LoopState)
    (sig : String × String) (tool : String) (k : Nat)
    (h : (observe cfg st sig).2 = some (.warning tool k)) :
    st.intervention_count = 0 ∧ st.stopped = false := by
  unfold observe at h
  by_cases hs : st.stopped = true
  · rw [if_pos hs] at h
    simp at h
  · rw [if_neg hs] at h
    simp only at h
    split at h
    next => simp at h
    next =>
      split at h
      next hcond =>
        rw [Bool.and_eq_true, decide_eq_true_eq] at hcond
        exact ⟨hcond.2, by simpa using hs⟩
      next => simp at h

/-- C5: with the default consecutive threshold 3, observing the same
signature three times emits exactly one WARNING, on the third observation
and none before it; and in general a WARNING is only ever emitted when no
intervention has been issued yet this run. -/
theorem C5_consecutive_warning_exactly_once :
    (observe_run default_config init_state [sigX, sigX, sigX]).2 =
      [none, none, some (.warning "search" 3)] ∧
    ∀ (cfg : Config) (st : LoopState) (sig : String × String) (tool : String) (k : Nat),
      (observe cfg st sig).2 = some (.warning tool k) →
      st.intervention_count = 0 ∧ st.stopped = false :=
  ⟨by decide, observe_warning_needs_no_intervention⟩

/-- C5 witness: the state right before the third observation has no
intervention issued and is not stopped. -/
theorem C5_consecutive_warning_witness :
    (⟨[sigX, sigX], 0, false⟩ : LoopState).intervention_count = 0 ∧
    (⟨[sigX, sigX], 0, false⟩ : LoopState).stopped = false :=
  C5_consecutive_warning_exactly_once.2 default_config
    ⟨[sigX, sigX], 0, false⟩ sigX "search" 3 (by decide)

/-- C1: with thresholds (3, 5), five observations of the same signature
emit exactly one TERMINAL — fired by the fifth observation alone, which
emits no WARNING alongside it (terminal precedence at the crossing event;
the separate consecutive rule fires its WARNING at the third
observation, as the full trace shows). The first total-threshold crossing
sets `stopped`, and a sixth observe of any signature is a no-op: the
state, history included, is untouched and nothing is emitted. -/
theorem C1_total_threshold_single_terminal :
    c1_run.2 =
      [none, none, some (.warning "search" 3), none, some (.terminal "search" 5)] ∧
    c1_run.2.countP is_terminal_output = 1 ∧
    c1_run.1.stopped = true ∧
    ∀ sig : String × String, observe default_config c1_run.1 sig = (c1_run.1, none) := by
  have hs : c1_run.1.stopped = true := by decide
  refine ⟨by decide, by decide, hs, ?_⟩
  intro sig
  simp [observe, hs]

/-- C1 witness: a sixth observation of a fresh signature is a no-op. -/
theorem C1_total_threshold_witness :
    observe default_config c1_run.1 ("other", "h") = (c1_run.1, none) :=
  C1_total_threshold_single_terminal.2.2.2 ("other", "h")

end LoopDetection

namespace StatusBuilder

open StigmerJson

/-- When no AI message exists anywhere, the reversed scan finds nothing. -/
theorem append_token_to_last_ai_eq_none (token : String) :
    ∀ ms : List AgentMessage,
      (∀ m ∈ ms, m.type ≠ MessageType.MESSAGE_AI) →
      append_token_to_last_ai token ms = none := by
  intro ms
  induction ms with
  | nil => intro _; rfl
  | cons m rest ih =>
    intro hall
    unfold append_token_to_last_ai
    rw [ih (fun x hx => hall x (List.mem_cons_of_mem _ hx))]
    simp only
    rw [if_neg (hall m (List.mem_cons_self _ _))]

/-- The reversed scan appends the token to the last AI message of the
transcript, wherever it sits. -/
theorem append_token_to_last_ai_split (token : String) (m : AgentMessage)
    (hm : m.type = MessageType.MESSAGE_AI) :
    ∀ (pre post : List AgentMessage),
      (∀ x ∈ post, x.type ≠ MessageType.MESSAGE_AI) →
      append_token_to_last_ai token (pre ++ m :: post) =
        some (pre ++ { m with content := m.content ++ token } :: post) := by
  intro pre
  induction pre with
  | nil =>
    intro post hpost
    rw [List.nil_append, List.nil_append]
    unfold append_token_to_last_ai
    rw [append_token_to_last_ai_eq_none token post hpost]
    simp only
    rw [if_pos hm]
  | cons p pre2 ih =>
    intro post hpost
    rw [List.cons_append, List.cons_append]
    unfold append_token_to_last_ai
    rw [ih post hpost]

/-- The index loop leaves a list without the run id unchanged. -/
theorem update_first_tool_call_absent (rid c n : String) :
    ∀ l : List ToolCall, (∀ tc ∈ l, tc.id ≠ rid) →
      update_first_tool_call rid c n l = l := by
  intro l
  induction l with
  | nil => intro _; rfl
  | cons tc rest ih =>
    intro hall
    unfold update_first_tool_call
    rw [if_neg (hall tc (List.mem_cons_self _ _)),
      ih (fun x hx => hall x (List.mem_cons_of_mem _ hx))]

/-- The index loop completes exactly the first ToolCall carrying the
run id and leaves everything else alone. -/
theorem update_first_tool_call_split (rid c n : String) (tc : ToolCall)
    (htc : tc.id = rid) :
    ∀ (pre post : List ToolCall), (∀ x ∈ pre, x.id ≠ rid) →
      update_first_tool_call rid c n (pre ++ tc :: post) =
        pre ++ complete_tool_call c n tc :: post := by
  intro pre
  induction pre with
  | nil =>
    intro post _
    show update_first_tool_call rid c n (tc :: post) = _
    unfold update_first_tool_call
    rw [if_pos htc]
    rfl
  | cons p pre2 ih =>
    intro post hpre
    show update_first_tool_call rid c n (p :: (pre2 ++ tc :: post)) = _
    unfold update_first_tool_call
    rw [if_neg (hpre p (List.mem_cons_self _ _)),
      ih post (fun x hx => hpre x (List.mem_cons_of_mem _ hx))]
    rfl

/-- A message none of whose tool calls carries the run id does not match. -/
theorem message_matches_run_eq_false (rid : String) (m : AgentMessage)
    (hall : ∀ tc ∈ m.tool_calls, tc.id ≠ rid) :
    message_matches_run rid m = false := by
  unfold message_matches_run
  split
  · rfl
  next tc rest heq =>
    have : tc.id ≠ rid := hall tc (by rw [heq]; exact List.mem_cons_self _ _)
    simp [this]

/-- The transcript loop leaves a transcript without the run id unchanged. -/
theorem update_first_message_absent (rid c n : String) :
    ∀ ms : List AgentMessage,
      (∀ m ∈ ms, ∀ tc ∈ m.tool_calls, tc.id ≠ rid) →
      update_first_message rid c n ms = ms := by
  intro ms
  induction ms with
  | nil => intro _; rfl
  | cons m rest ih =>
    intro hall
    unfold update_first_message
    rw [message_matches_run_eq_false rid m (hall m (List.mem_cons_self _ _))]
    simp only [Bool.false_eq_true, if_false]
    rw [ih (fun x hx => hall x (List.mem_cons_of_mem _ hx))]

/-- A tool-start whose fingerprint was already recorded changes nothing. -/
theorem handle_tool_start_dup (b : Builder) (tool_name : String)
    (raw_args : List (String × JVal)) (run_id now : String)
    (hmem : get_tool_fingerprint tool_name (unwrap_tool_args raw_args) ∈
      b.tool_call_fingerprints) :
    handle_tool_start b tool_name raw_args run_id now = b := by
  unfold handle_tool_start
  split
  · rfl
  · simp [hmem]

/-- After any accepted tool-start, its fingerprint is recorded. -/
theorem handle_tool_start_mem (b : Builder) (tool_name : String)
    (raw_args : List (String × JVal)) (run_id now : String)
    (hname : tool_name ≠ "") (hrid : run_id ≠ "") :
    get_tool_fingerprint tool_name (unwrap_tool_args raw_args) ∈
      (handle_tool_start b tool_name raw_args run_id now).tool_call_fingerprints := by
  unfold handle_tool_start
  rw [if_neg (by push_neg; exact ⟨hname, hrid⟩)]
  by_cases hm : get_tool_fingerprint tool_name (unwrap_tool_args raw_args) ∈
    b.tool_call_fingerprints
  · simp only
    rw [if_pos hm]
    exact hm
  · simp only
    rw [if_neg hm]
    split <;> exact List.mem_cons_self _ _

/-- C2 counterexample: with a transcript whose most recent entry is a tool
entry (an earlier AI entry "He" exists), the code appends the token "llo"
to the earlier AI entry ("Hello", transcript length stays 2) instead of
opening a new AI entry as the claim, read on the most recent entry,
specifies (length 3). -/
theorem C2_token_routing_counterexample :
    (handle_chat_model_stream c2_state (some (.str "llo")) "t2").messages.map
      AgentMessage.content = ["Hello", ""] ∧
    (handle_chat_model_stream c2_state (some (.str "llo")) "t2").messages.length = 2 ∧
    (token_routing_as_specified c2_state "llo" "t2").messages.length = 3 ∧
    handle_chat_model_stream c2_state (some (.str "llo")) "t2" ≠
      token_routing_as_specified c2_state "llo" "t2" := by
  refine ⟨by decide, by decide, by decide, ?_⟩
  intro heq
  have h2 : (handle_chat_model_stream c2_state (some (.str "llo")) "t2").messages.length
      = 2 := by decide
  have h3 : (token_routing_as_specified c2_state "llo" "t2").messages.length = 3 := by
    decide
  rw [heq] at h2
  rw [h2] at h3
  exact absurd h3 (by decide)

/-- C2 (amended): a non-empty token is appended to the most recent AI
entry anywhere in the transcript when one exists; a new AI entry is opened
with the token as its initial content only when the transcript has no AI
entry at all; "He" then "llo" on an empty transcript produce exactly one
AI entry with content "Hello". -/
theorem C2_token_appends_to_most_recent_ai (s : Status) (token now : String)
    (htok : token ≠ "") :
    ((∀ m ∈ s.messages, m.type ≠ MessageType.MESSAGE_AI) →
      handle_chat_model_stream s (some (.str token)) now =
        { s with messages := s.messages ++ [⟨.MESSAGE_AI, token, now, []⟩] }) ∧
    (∀ (pre : List AgentMessage) (m : AgentMessage) (post : List AgentMessage),
      s.messages = pre ++ m :: post →
      m.type = MessageType.MESSAGE_AI →
      (∀ x ∈ post, x.type ≠ MessageType.MESSAGE_AI) →
      handle_chat_model_stream s (some (.str token)) now =
        { s with messages := pre ++ { m with content := m.content ++ token } :: post }) ∧
    (handle_chat_model_stream (handle_chat_model_stream empty_status (some (.str "He")) "t0")
        (some (.str "llo")) "t1").messages.map AgentMessage.content = ["Hello"] := by
  refine ⟨?_, ?_, by decide⟩
  · intro hall
    unfold handle_chat_model_stream token_of_chunk
    simp only
    rw [if_neg htok, append_token_to_last_ai_eq_none token s.messages hall]
  · intro pre m post hsplit hm hpost
    unfold handle_chat_model_stream token_of_chunk
    simp only
    rw [if_neg htok, hsplit, append_token_to_last_ai_split token m hm pre post hpost]

/-- C2 witness: a token delivered into the empty transcript opens one AI
entry holding it. -/
theorem C2_token_routing_witness :
    handle_chat_model_stream empty_status (some (.str "He")) "t0" =
      { empty_status with messages := [⟨.MESSAGE_AI, "He", "t0", []⟩] } := by
  have h := (C2_token_appends_to_most_recent_ai empty_status "He" "t0" (by decide)).1
    (by intro m hm; simp [empty_status] at hm)
  simpa [empty_status] using h

/-- C3: a tool-end event (real tool, non-empty id) completes the first
matching pending ToolCall — result set to the extracted content, status
moved to COMPLETED, everything else untouched — while a tool-end whose id
was never started leaves the whole status projection unchanged and raises
nothing (the embedding is total). -/
theorem C3_tool_end_completes_or_drops (s : Status) (tool_name run_id : String)
    (output : JVal) (now : String)
    (hid : run_id ≠ "") (hplan : tool_name ∉ PLANNING_TOOLS) :
    (∀ (pre : List ToolCall) (tc : ToolCall) (post : List ToolCall),
      s.tool_calls = pre ++ tc :: post →
      (∀ x ∈ pre, x.id ≠ run_id) →
      tc.id = run_id →
      tc.status = ToolCallStatus.TOOL_CALL_PENDING →
      (handle_tool_end s tool_name run_id output now).tool_calls =
        pre ++ complete_tool_call (extract_tool_result_content output) now tc :: post ∧
      (complete_tool_call (extract_tool_result_content output) now tc).status =
        ToolCallStatus.TOOL_CALL_COMPLETED ∧
      (complete_tool_call (extract_tool_result_content output) now tc).result =
        extract_tool_result_content output) ∧
    ((∀ x ∈ s.tool_calls, x.id ≠ run_id) →
     (∀ m ∈ s.messages, ∀ x ∈ m.tool_calls, x.id ≠ run_id) →
     handle_tool_end s tool_name run_id output now = s) := by
  have hcond : ¬(run_id = "" ∨ tool_name ∈ PLANNING_TOOLS) := by
    push_neg; exact ⟨hid, hplan⟩
  constructor
  · intro pre tc post hsplit hpre htc hpend
    refine ⟨?_, rfl, rfl⟩
    unfold handle_tool_end
    rw [if_neg hcond]
    simp only
    rw [hsplit, update_first_tool_call_split _ _ _ tc htc pre post hpre]
  · intro h1 h2
    unfold handle_tool_end
    rw [if_neg hcond]
    simp only
    rw [update_first_tool_call_absent _ _ _ _ h1, update_first_message_absent _ _ _ _ h2]

/-- C3 witness: the pending call `tc_fetch` is completed by its tool-end,
and a tool-end with an unknown id leaves the status unchanged. -/
theorem C3_tool_end_witness :
    (handle_tool_end c3_state "fetch" "run-7" (.str "ok") "t2").tool_calls =
      [complete_tool_call "ok" "t2" tc_fetch] ∧
    handle_tool_end c3_state "fetch" "zz" (.str "ok") "t2" = c3_state := by
  constructor
  · have h := (C3_tool_end_completes_or_drops c3_state "fetch" "run-7" (.str "ok") "t2"
      (by decide) (by decide)).1 [] tc_fetch [] rfl (by simp) rfl rfl
    simpa using h.1
  · exact (C3_tool_end_completes_or_drops c3_state "fetch" "zz" (.str "ok") "t2"
      (by decide) (by decide)).2 (by decide) (by decide)

/-- C4: delivering the same tool-start event (same name, args and id)
twice changes nothing on the second delivery — the fingerprint recorded by
the first delivery makes the second a no-op — so exactly one ToolCall with
that id exists afterwards, as the concrete "x"/empty-args/"1" instance
shows. -/
theorem C4_tool_start_idempotent (b : Builder) (tool_name : String)
    (raw_args : List (String × JVal)) (run_id now now2 : String)
    (hname : tool_name ≠ "") (hrid : run_id ≠ "") :
    handle_tool_start (handle_tool_start b tool_name raw_args run_id now)
        tool_name raw_args run_id now2 =
      handle_tool_start b tool_name raw_args run_id now ∧
    c4_builder.current_status.tool_calls.countP (fun tc => tc.id == "1") = 1 :=
  ⟨handle_tool_start_dup _ _ _ _ _ (handle_tool_start_mem b _ _ _ _ hname hrid),
    by decide⟩

/-- C4 witness: the identical tool-start delivered twice from the empty
builder. -/
theorem C4_tool_start_idempotent_witness :
    handle_tool_start (handle_tool_start empty_builder "x" [] "1" "t2") "x" [] "1" "t3" =
      handle_tool_start empty_builder "x" [] "1" "t2" :=
  (C4_tool_start_idempotent empty_builder "x" [] "1" "t2" "t3" (by decide) (by decide)).1

/-- C9: two tool-starts with different ids but the same name and args
produce one ToolCall only — the fingerprint ignores the event id, so the
second delivery is dropped entirely and no ToolCall with the second id is
ever recorded. -/
theorem C9_dedup_keyed_on_fingerprint_not_event_id (b : Builder) (tool_name : String)
    (raw_args : List (String × JVal)) (id1 id2 now now2 : String)
    (hname : tool_name ≠ "") (hid1 : id1 ≠ "") :
    handle_tool_start (handle_tool_start b tool_name raw_args id1 now)
        tool_name raw_args id2 now2 =
      handle_tool_start b tool_name raw_args id1 now ∧
    c9_builder.current_status.tool_calls.map ToolCall.id = ["1"] ∧
    c9_builder.current_status.tool_calls.countP (fun tc => tc.id == "2") = 0 :=
  ⟨handle_tool_start_dup _ _ _ _ _ (handle_tool_start_mem b _ _ _ _ hname hid1),
    by decide, by decide⟩

/-- C9 witness: the same (name, args) under a fresh id is dropped. -/
theorem C9_dedup_witness :
    handle_tool_start
        (handle_tool_start empty_builder "search" [("q", JVal.str "x")] "5" "t2")
        "search" [("q", JVal.str "x")] "6" "t3" =
      handle_tool_start empty_builder "search" [("q", JVal.str "x")] "5" "t2" :=
  (C9_dedup_keyed_on_fingerprint_not_event_id empty_builder "search"
    [("q", JVal.str "x")] "5" "6" "t2" "t3" (by decide) (by decide)).1

end StatusBuilder
